import Mathlib

/-!
Verification of the background physics-simulation scheduler and multi-world
synchronization layer of the `bevy_rapier` fork.

Shallow embedding notes:
- `f32` values (time drifts, simulated durations, timestep lengths) are
  modelled as exact rationals `ℚ`.
- Rust `as usize` on a non-negative float truncates toward zero and saturates
  at zero for negative inputs; this is `ratAsUsize`.
- ECS components are modelled as explicit state records; `HashMap`s as
  association lists with unique keys; deferred `Commands` as explicit command
  lists applied after a system's query loop.
- Entity identifiers and physics-object handles are `ℕ`.
-/

namespace BevyRapier

/-- Rust `as usize` conversion from a float, modelled on `ℚ`: truncation toward
zero for non-negative values, saturation at `0` for negative values (for
negative `q`, `⌊q⌋ < 0`, so `Int.toNat` yields `0`, matching Rust). -/
def ratAsUsize (q : ℚ) : ℕ := (⌊q⌋).toNat

/-- Rust `Ord::clamp(lo, hi)` on `usize` (defined for `lo ≤ hi`). -/
def natClampRust (x lo hi : ℕ) : ℕ := if x < lo then lo else if x > hi then hi else x

/-- The `FixedSubsteps` timestep configuration (`configuration::FixedSubsteps`):
a fixed sub-step duration (never changed, for determinism) and a dynamically
adjustable sub-step count. -/
structure FixedSubsteps where
  substep_dt : ℚ
  substeps : ℕ
  deriving DecidableEq

/-- The `TimestepMode` resource: how simulated time advances each step. -/
inductive TimestepMode where
  | Fixed (dt : ℚ) (substeps : ℕ)
  | Variable (max_dt : ℚ) (time_scale : ℚ) (substeps : ℕ)
  | Interpolated (dt : ℚ) (time_scale : ℚ) (substeps : ℕ)
  | FixedSubsteps (cfg : FixedSubsteps)
  deriving DecidableEq

/-- The sub-step count carried by a `TimestepMode` value. -/
def timestep_substeps : TimestepMode → ℕ
  | .Fixed _ s => s
  | .Variable _ _ s => s
  | .Interpolated _ _ s => s
  | .FixedSubsteps cfg => cfg.substeps

/-- Per-context body of `react_before_starting_simulation`
(`bevy_rapier2d/examples/background2.rs`, lines 247-288): given the current
`TimestepMode` and `SimulationToRenderTime.diff`, returns the updated mode and
the updated `diff`.  In `FixedSubsteps` mode:
- if `diff > 0.5`: `half_time_to_catch_back := diff / 2` is taken first; if
  additionally `diff > 1.0`, `diff` is reset to `0`; the sub-step count becomes
  `((half_time_to_catch_back / substep_dt) as usize).clamp(10, 40)`;
- otherwise `time_to_advance := (1/60 + diff).max(0)` and the sub-step count
  becomes `(time_to_advance / substep_dt) as usize`.
Other modes are untouched (the system returns early). -/
def react_before_starting_simulation (mode : TimestepMode) (diff : ℚ) :
    TimestepMode × ℚ :=
  match mode with
  | .FixedSubsteps sync =>
    if diff > 1/2 then
      let half_time_to_catch_back := diff / 2
      let diff2 := if diff > 1 then 0 else diff
      let clamped_substeps_runs :=
        natClampRust (ratAsUsize (half_time_to_catch_back / sync.substep_dt)) 10 40
      (.FixedSubsteps { sync with substeps := clamped_substeps_runs }, diff2)
    else
      let time_to_advance := max (1/60 + diff) 0
      (.FixedSubsteps { sync with substeps := ratAsUsize (time_to_advance / sync.substep_dt) },
        diff)
  | m => (m, diff)

/-- Drift update performed by `handle_tasks` when a simulation result is
applied (`src/plugin/systems/task.rs`, lines 106-117):
`diff := diff - simulated_time + elapsed_since_dispatch`, then clamped to `0`
from below. -/
def apply_simulation_result_diff (diff simulated_time elapsed_since_dispatch : ℚ) : ℚ :=
  let d := diff - simulated_time + elapsed_since_dispatch
  if d < 0 then 0 else d

/-- Scheduler-relevant state of one World (`RapierContext` entity): whether its
`SimulationTask` marker component is present, and how many worker tasks are
currently in flight for it.  Worlds evolve independently under
`spawn_simulation_task` and `handle_tasks`, so the state machine is per
World. -/
structure WorldSched where
  hasTask : Bool
  inFlight : ℕ
  deriving DecidableEq

/-- Action of `spawn_simulation_task` (`src/plugin/systems/task.rs`, lines
141-244) on one World: the query is filtered by `Without<SimulationTask>`, so
a World with the marker is not selected and is left unchanged; a selected
World gets a worker task dispatched and the `SimulationTask` marker
inserted. -/
def spawn_simulation_task_world (w : WorldSched) : WorldSched :=
  if w.hasTask then w else { hasTask := true, inFlight := w.inFlight + 1 }

/-- Action of `handle_tasks` (`src/plugin/systems/task.rs`, lines 78-135) on
one World: only entities with a `SimulationTask` are queried; when the channel
yields a result it is applied and the marker is removed (the worker task has
completed), otherwise the task stays in flight. -/
def handle_tasks_world (w : WorldSched) (resultReady : Bool) : WorldSched :=
  if w.hasTask then
    if resultReady then { hasTask := false, inFlight := w.inFlight - 1 }
    else w
  else w

/-- One scheduler-affecting event on a World: a run of `spawn_simulation_task`
or a run of `handle_tasks` (with the channel's readiness at that poll). -/
inductive SchedEvent where
  | spawn
  | handle (resultReady : Bool)
  deriving DecidableEq

/-- Applies one scheduler event to a World's state. -/
def sched_step (w : WorldSched) : SchedEvent → WorldSched
  | .spawn => spawn_simulation_task_world w
  | .handle r => handle_tasks_world w r

/-- A World's state after a sequence of scheduler events, starting from the
initial state (no marker, no in-flight task). -/
def sched_run (evs : List SchedEvent) : WorldSched :=
  evs.foldl sched_step ⟨false, 0⟩

/-- The `SimulationTask` component data relevant to the polling decision of
`handle_tasks`: the number of render frames elapsed since dispatch. -/
structure SimulationTask where
  render_frames_elapsed : ℕ
  deriving DecidableEq

/-- Outcome of one `handle_tasks` visit to one in-flight task. -/
inductive PollOutcome where
  /-- `render_frames_elapsed > 20`: blocking `recv()` waited until the worker's
  result arrived, and the result was applied (marker removed). -/
  | resultHandledBlocking
  /-- `try_recv()` returned a result, which was applied (marker removed). -/
  | resultHandledPolled
  /-- `try_recv()` had no result: the task is left in flight. -/
  | stillInFlight
  deriving DecidableEq

/-- One `handle_tasks` visit to one task (`src/plugin/systems/task.rs`, lines
121-134): if more than 20 render frames have elapsed since dispatch, block on
`recv()` until the result arrives; otherwise `try_recv()`: on a result, apply
it; on no result, leave the task in flight with its elapsed-frame counter
incremented.  Returns the outcome and the task component left on the entity
(`none` when the marker was removed). -/
def handle_tasks_poll (t : SimulationTask) (resultAvailableNow : Bool) :
    PollOutcome × Option SimulationTask :=
  if t.render_frames_elapsed > 20 then
    (.resultHandledBlocking, none)
  else if resultAvailableNow then
    (.resultHandledPolled, none)
  else
    (.stillInFlight, some { render_frames_elapsed := t.render_frames_elapsed + 1 })

/-- The worker's catch-up loop (`src/plugin/systems/task.rs`, lines 202-219):
`for i in 0..max_tries { if time_to_catch_up < simulated_time { break; }
simulated_time += step_simulation(..); }`, with remaining iteration budget
`fuel`, accumulated simulated time, and number of steps performed so far.  The
duration produced by the `i`-th `step_simulation` call is abstracted as
`delta i`.  Returns the final `(simulated_time, steps performed)`. -/
def step_simulation_loop (time_to_catch_up : ℚ) (delta : ℕ → ℚ) :
    ℕ → ℚ → ℕ → ℚ × ℕ
  | 0, simulated_time, steps => (simulated_time, steps)
  | fuel + 1, simulated_time, steps =>
    if time_to_catch_up < simulated_time then (simulated_time, steps)
    else step_simulation_loop time_to_catch_up delta fuel
      (simulated_time + delta steps) (steps + 1)

/-- The simulated time and step count produced by the dispatched worker
(`src/plugin/systems/task.rs`, lines 196-236): `max_tries_to_catch_up = 3`
loop iterations when the physics pipeline is active, nothing otherwise. -/
def spawn_simulation_task_worker (physics_pipeline_active : Bool)
    (time_to_catch_up : ℚ) (delta : ℕ → ℚ) : ℚ × ℕ :=
  if physics_pipeline_active then step_simulation_loop time_to_catch_up delta 3 0 0
  else (0, 0)

/-- Association-list rendering of a `HashMap<Entity, Handle>`: lookup of the
(unique) binding for a key. -/
def alookup : List (ℕ × ℕ) → ℕ → Option ℕ
  | [], _ => none
  | (k, v) :: rest, e => if k = e then some v else alookup rest e

/-- Removal of a key's binding (`HashMap::remove`; the removed value is what
`alookup` returns). -/
def aerase : List (ℕ × ℕ) → ℕ → List (ℕ × ℕ)
  | [], _ => []
  | (k, v) :: rest, e => if k = e then rest else (k, v) :: aerase rest e

/-- Insertion of a binding (`HashMap::insert`), replacing any previous binding
for the key. -/
def ainsert (m : List (ℕ × ℕ)) (k v : ℕ) : List (ℕ × ℕ) := (k, v) :: aerase m k

/-- Per-World physics context (`RapierContext`): the four entity→handle
registry maps, the body and collider containers (modelled by their lists of
live handles), and the deleted-colliders record (handle→entity bindings kept
until consumed by downstream readers). -/
structure RapierContext where
  entity2body : List (ℕ × ℕ)
  entity2collider : List (ℕ × ℕ)
  entity2impulse_joint : List (ℕ × ℕ)
  entity2multibody_joint : List (ℕ × ℕ)
  bodies : List ℕ
  colliders : List ℕ
  deleted_colliders : List (ℕ × ℕ)
  /-- Modelled from the spec: the body of `RapierContext::collider_parent` is
  declared outside the included sources (only its caller `sync_removals` is
  included).  The spec says collider removal, "if the collider had a parent
  rigid body, emits a mass-changed notification for that parent", so the
  parent rigid body of the collider attached to an entity is modelled as an
  abstract per-context map from entity to parent-body entity. -/
  collider_parent : ℕ → Option ℕ

/-- The `item_finder` closure passed by `sync_removals` for rigid-body
removals (`src/plugin/systems/remove.rs`, lines 47-49):
`context.entity2body.remove(&entity)`, returning the removed handle, if any,
together with the updated context. -/
def removed_body_finder (entity : ℕ) (c : RapierContext) : Option ℕ × RapierContext :=
  (alookup c.entity2body entity, { c with entity2body := aerase c.entity2body entity })

/-- The `item_finder` closure passed by `sync_removals` for collider removals
(`src/plugin/systems/remove.rs`, lines 89-91):
`context.entity2collider.remove(&entity)`. -/
def removed_collider_finder (entity : ℕ) (c : RapierContext) : Option ℕ × RapierContext :=
  (alookup c.entity2collider entity, { c with entity2collider := aerase c.entity2collider entity })

/-- `find_context_entity` (`src/plugin/systems/remove.rs`, lines 231-239):
iterates the contexts query in order, applying `item_finder` to each context
until one yields a value; returns the found context entity and value, with the
traversal's (possible) mutations applied to the visited contexts.  Contexts
after the first hit are not visited. -/
def find_context_entity (item_finder : RapierContext → Option ℕ × RapierContext) :
    List (ℕ × RapierContext) → Option (ℕ × ℕ) × List (ℕ × RapierContext)
  | [] => (none, [])
  | (id, c) :: rest =>
    let fc := item_finder c
    match fc.1 with
    | some found => (some (id, found), (id, fc.2) :: rest)
    | none =>
      let r := find_context_entity item_finder rest
      (r.1, (id, fc.2) :: r.2)

/-- Collider-removal actions applied to the found context by `sync_removals`
(`src/plugin/systems/remove.rs`, lines 96-106): consult the collider's parent
rigid body and emit a `MassModifiedEvent` for it if present, remove the
collider from the collider container, and record `(handle, entity)` in
`deleted_colliders`.  Returns the updated context and the emitted mass
events. -/
def collider_removal_update (entity handle : ℕ) (c : RapierContext) :
    RapierContext × List ℕ :=
  let mass_events :=
    match c.collider_parent entity with
    | some parent => [parent]
    | none => []
  let c1 := { c with colliders := c.colliders.erase handle }
  let c2 := { c1 with deleted_colliders := ainsert c1.deleted_colliders handle entity }
  (c2, mass_events)

/-- One iteration of the collider-removal loop of `sync_removals`
(`src/plugin/systems/remove.rs`, lines 87-107) for one removed entity:
`find_context_entity` with the `entity2collider.remove` finder, inlined, then
`collider_removal_update` on the found context.  Returns the updated context
list and the emitted `MassModifiedEvent`s. -/
def sync_removed_collider (entity : ℕ) :
    List (ℕ × RapierContext) → List (ℕ × RapierContext) × List ℕ
  | [] => ([], [])
  | (id, c) :: rest =>
    let fc := removed_collider_finder entity c
    match fc.1 with
    | some handle =>
      let r := collider_removal_update entity handle fc.2
      ((id, r.1) :: rest, r.2)
    | none =>
      let r := sync_removed_collider entity rest
      ((id, fc.2) :: r.1, r.2)

/-- Presence of the four per-entity physics handle components
(`RapierColliderHandle`, `RapierRigidBodyHandle`, `RapierMultibodyJointHandle`,
`RapierImpulseJointHandle`). -/
structure HandleSet where
  collider : Bool
  body : Bool
  multibody_joint : Bool
  impulse_joint : Bool
  deriving DecidableEq

/-- All four handle components absent, as left by `remove_old_physics`
(`src/plugin/systems/multiple_rapier_contexts.rs`, lines 43-50). -/
def HandleSet.cleared : HandleSet := ⟨false, false, false, false⟩

/-- ECS state relevant to `on_add_entity_with_parent`
(`src/plugin/systems/multiple_rapier_contexts.rs`): the `Parent` component,
the `RapierContextEntityLink` component (value = the linked context entity),
and the four handle components of each entity. -/
structure EcsState where
  parentOf : ℕ → Option ℕ
  link : ℕ → Option ℕ
  handles : ℕ → HandleSet

/-- A deferred ECS command: `remove_old_physics` removes the four handle
components; inserting a `RapierContextEntityLink` sets the link. -/
inductive EcsCmd where
  | remove_old_physics (e : ℕ)
  | insert_link (e : ℕ) (w : ℕ)

/-- Applies one deferred command to the ECS state. -/
def apply_cmd (s : EcsState) : EcsCmd → EcsState
  | .remove_old_physics e =>
    { s with handles := fun x => if x = e then HandleSet.cleared else s.handles x }
  | .insert_link e w =>
    { s with link := fun x => if x = e then some w else s.link x }

/-- The upward walk of `on_add_entity_with_parent`
(`src/plugin/systems/multiple_rapier_contexts.rs`, lines 27-38): starting from
an entity's parent, follow `Parent` components until an ancestor holding a
`RapierContextEntityLink` is found, and return that ancestor's link; `fuel`
bounds the chain length (the ECS hierarchy is finite and acyclic). -/
def walk_to_linked_ancestor (s : EcsState) : ℕ → Option ℕ → Option ℕ
  | _, none => none
  | 0, some _ => none
  | fuel + 1, some parent_entity =>
    match s.link parent_entity with
    | some pw => some pw
    | none => walk_to_linked_ancestor s fuel (s.parentOf parent_entity)

/-- One run of `on_add_entity_with_parent`
(`src/plugin/systems/multiple_rapier_contexts.rs`, lines 14-40).  `query`
stands for the entities matched by the system's query: its filter
`(With<RapierContextEntityLink>, Or<(Changed<RapierContextEntityLink>, Changed<Parent>)>)`
is modelled by skipping entities without a link or without a parent, with
`query` itself standing for the changed-entity set.  For each matched entity
the system walks up to the nearest linked ancestor; if that ancestor's link
differs from the entity's own, it queues commands removing the entity's old
physics handles and inserting the ancestor's link.  Commands are deferred and
applied after the query loop. -/
def on_add_entity_with_parent (s : EcsState) (fuel : ℕ) (query : List ℕ) : EcsState :=
  let cmds := query.foldl (fun acc ent =>
    match s.link ent, s.parentOf ent with
    | some _, some parent =>
      match walk_to_linked_ancestor s fuel (some parent) with
      | some pw =>
        let differs : Bool :=
          match s.link ent with
          | some l => l != pw
          | none => true
        if differs then acc ++ [EcsCmd.remove_old_physics ent, EcsCmd.insert_link ent pw]
        else acc
      | none => acc
    | _, _ => acc) []
  cmds.foldl apply_cmd s

/-- A context whose registry maps are all empty. -/
def ctx_empty : RapierContext :=
  ⟨[], [], [], [], [], [], [], fun _ => none⟩

/-- A context owning rigid body `3` for entity `9` and collider `7` for entity
`5`; the collider's parent rigid body is the one of entity `9`. -/
def ctx_owner : RapierContext where
  entity2body := [(9, 3)]
  entity2collider := [(5, 7)]
  entity2impulse_joint := []
  entity2multibody_joint := []
  bodies := [3]
  colliders := [7, 2]
  deleted_colliders := []
  collider_parent := fun x => if x = 5 then some 9 else none

/-- Concrete hierarchy for the C9 counterexample: entity `0` is linked to
context entity `100`; entity `1` is a child of `0` carrying no
`RapierContextEntityLink` of its own. -/
def unlinked_child_state : EcsState where
  parentOf := fun e => if e = 1 then some 0 else none
  link := fun e => if e = 0 then some 100 else none
  handles := fun _ => HandleSet.cleared

/-- Concrete hierarchy for the amended C9 witness: entity `2` (linked to `50`,
holding collider and body handles) is a child of entity `1` (unlinked), itself
a child of entity `0` (linked to `100`). -/
def linked_child_state : EcsState where
  parentOf := fun e => if e = 2 then some 1 else if e = 1 then some 0 else none
  link := fun e => if e = 2 then some 50 else if e = 0 then some 100 else none
  handles := fun _ => ⟨true, true, false, false⟩

/-! Helper lemmas. -/

lemma react_behind_eq (diff : ℚ) (sync : FixedSubsteps) (h : 1/2 < diff) :
    react_before_starting_simulation (.FixedSubsteps sync) diff =
      (.FixedSubsteps ⟨sync.substep_dt,
          natClampRust (ratAsUsize ((diff / 2) / sync.substep_dt)) 10 40⟩,
        if diff > 1 then 0 else diff) := by
  simp only [react_before_starting_simulation, if_pos (show diff > 1/2 from h)]

lemma natClampRust_mem (x : ℕ) : 10 ≤ natClampRust x 10 40 ∧ natClampRust x 10 40 ≤ 40 := by
  unfold natClampRust
  split_ifs <;> omega

lemma sched_step_inv (w : WorldSched) (e : SchedEvent)
    (hw : w.inFlight = if w.hasTask then 1 else 0) :
    (sched_step w e).inFlight = if (sched_step w e).hasTask then 1 else 0 := by
  cases e with
  | spawn =>
    simp only [sched_step, spawn_simulation_task_world]
    by_cases h : w.hasTask <;> simp [h, hw]
  | handle r =>
    simp only [sched_step, handle_tasks_world]
    by_cases h : w.hasTask
    · cases r <;> simp [h, hw]
    · simp [h, hw]

lemma sched_run_inv (evs : List SchedEvent) :
    (sched_run evs).inFlight = if (sched_run evs).hasTask then 1 else 0 := by
  suffices h : ∀ w : WorldSched, w.inFlight = (if w.hasTask then 1 else 0) →
      (evs.foldl sched_step w).inFlight =
        if (evs.foldl sched_step w).hasTask then 1 else 0 by
    exact h ⟨false, 0⟩ rfl
  induction evs with
  | nil => intro w hw; simpa using hw
  | cons e rest ih =>
    intro w hw
    simpa using ih (sched_step w e) (sched_step_inv w e hw)

lemma step_simulation_loop_spec (t : ℚ) (d : ℕ → ℚ) (fuel s : ℕ) :
    s ≤ (step_simulation_loop t d fuel (∑ i ∈ Finset.range s, d i) s).2 ∧
    (step_simulation_loop t d fuel (∑ i ∈ Finset.range s, d i) s).2 ≤ s + fuel ∧
    (step_simulation_loop t d fuel (∑ i ∈ Finset.range s, d i) s).1 =
      ∑ i ∈ Finset.range (step_simulation_loop t d fuel (∑ i ∈ Finset.range s, d i) s).2, d i ∧
    (∀ j, s ≤ j → j < (step_simulation_loop t d fuel (∑ i ∈ Finset.range s, d i) s).2 →
      ¬ t < ∑ i ∈ Finset.range j, d i) ∧
    ((step_simulation_loop t d fuel (∑ i ∈ Finset.range s, d i) s).2 < s + fuel →
      t < (step_simulation_loop t d fuel (∑ i ∈ Finset.range s, d i) s).1) := by
  induction fuel generalizing s with
  | zero =>
    simp only [step_simulation_loop]
    exact ⟨le_refl s, by omega, by trivial, fun j h1 h2 => absurd h2 (by omega), by omega⟩
  | succ fuel ih =>
    by_cases hlt : t < ∑ i ∈ Finset.range s, d i
    · simp only [step_simulation_loop, if_pos hlt]
      exact ⟨le_refl s, by omega, by trivial, fun j h1 h2 => absurd h2 (by omega), fun _ => hlt⟩
    · have hsum : (∑ i ∈ Finset.range s, d i) + d s = ∑ i ∈ Finset.range (s + 1), d i :=
        (Finset.sum_range_succ d s).symm
      have hrec : step_simulation_loop t d (fuel + 1) (∑ i ∈ Finset.range s, d i) s =
          step_simulation_loop t d fuel (∑ i ∈ Finset.range (s + 1), d i) (s + 1) := by
        rw [step_simulation_loop, if_neg hlt, hsum]
      rw [hrec]
      obtain ⟨h1, h2, h3, h4, h5⟩ := ih (s + 1)
      refine ⟨by omega, by omega, h3, ?_, fun h => h5 (by omega)⟩
      intro j hj1 hj2
      rcases Nat.eq_or_lt_of_le hj1 with heq | hlt2
      · subst heq; exact hlt
      · exact h4 j hlt2 hj2

lemma alookup_ainsert (m : List (ℕ × ℕ)) (k v : ℕ) : alookup (ainsert m k v) k = some v := by
  simp [ainsert, alookup]

lemma aerase_of_alookup_none (m : List (ℕ × ℕ)) (e : ℕ) (h : alookup m e = none) :
    aerase m e = m := by
  induction m with
  | nil => rfl
  | cons hd tl ih =>
    obtain ⟨k, v⟩ := hd
    by_cases hk : k = e
    · simp [alookup, hk] at h
    · simp only [alookup, if_neg hk] at h
      simp [aerase, hk, ih h]

/-! Theorems for the claims. -/

/-- C2: after `handle_tasks` applies a completed simulation result, the updated
drift `diff - simulated_time + elapsed` is set to exactly `0` whenever it is
negative, hence the resulting `SimulationToRenderTime.diff` is never left
negative. -/
theorem apply_simulation_result_diff_nonneg (diff simulated_time elapsed : ℚ) :
    0 ≤ apply_simulation_result_diff diff simulated_time elapsed ∧
      (diff - simulated_time + elapsed < 0 →
        apply_simulation_result_diff diff simulated_time elapsed = 0) := by
  simp only [apply_simulation_result_diff]
  constructor
  · split_ifs with h
    · exact le_refl 0
    · linarith [not_lt.mp h]
  · intro h
    simp [h]

/-- Witness for C2 at `diff = 0`, `simulated_time = 5`, `elapsed = 1`. -/
theorem apply_simulation_result_diff_nonneg_witness :
    0 ≤ apply_simulation_result_diff 0 5 1 ∧ apply_simulation_result_diff 0 5 1 = 0 := by
  have h := apply_simulation_result_diff_nonneg 0 5 1
  exact ⟨h.1, h.2 (by norm_num)⟩

/-- C3: in fixed-substep mode, whenever the drift exceeds `0.5` before
dispatch, the sub-step count is set to
`clamp((diff / 2) / substep_dt, 10, 40)` with integer truncation of the
quotient (and `substep_dt` is left unchanged). -/
theorem react_substeps_when_behind (diff : ℚ) (sync : FixedSubsteps) (h : 1/2 < diff) :
    (react_before_starting_simulation (.FixedSubsteps sync) diff).1 =
      .FixedSubsteps ⟨sync.substep_dt,
        natClampRust (ratAsUsize ((diff / 2) / sync.substep_dt)) 10 40⟩ := by
  rw [react_behind_eq diff sync h]

/-- Witness for C3: `diff = 0.6 = 3/5`, `substep_dt = 1/60` gives a sub-step
count of exactly `18`. -/
theorem react_substeps_when_behind_witness :
    (react_before_starting_simulation (.FixedSubsteps ⟨1/60, 1⟩) (3/5)).1 =
      .FixedSubsteps ⟨1/60, 18⟩ := by
  have h := react_substeps_when_behind (3/5) ⟨1/60, 1⟩ (by norm_num)
  rw [h]
  norm_num [ratAsUsize, natClampRust]
  rfl

/-- C4 counterexample: with input drift `0` (the claim quantifies over every
drift value, including zero) and `substep_dt = 1/60`, the pre-dispatch
adjustment computes a sub-step count of `1`, which does not lie within
`[10, 40]`. -/
theorem react_substeps_zero_drift_outside_bounds :
    timestep_substeps
        (react_before_starting_simulation (.FixedSubsteps ⟨1/60, 30⟩) 0).1 = 1 ∧
      ¬ 10 ≤ timestep_substeps
        (react_before_starting_simulation (.FixedSubsteps ⟨1/60, 30⟩) 0).1 := by
  norm_num [react_before_starting_simulation, timestep_substeps, ratAsUsize, natClampRust,
    max_def]

/-- C4 (amended): in fixed-substep mode, whenever the drift exceeds the soft
threshold `0.5`, the computed sub-step count lies within `[10, 40]`; for
smaller (zero or negative) drift the count is `(1/60 + diff).max(0) /
substep_dt` truncated, which may fall below `10`. -/
theorem react_substeps_bounded_when_behind (diff : ℚ) (sync : FixedSubsteps) (h : 1/2 < diff) :
    10 ≤ timestep_substeps (react_before_starting_simulation (.FixedSubsteps sync) diff).1 ∧
      timestep_substeps (react_before_starting_simulation (.FixedSubsteps sync) diff).1 ≤ 40 := by
  rw [react_behind_eq diff sync h]
  exact natClampRust_mem _

/-- Witness for amended C4 at `diff = 7`, `substep_dt = 1/60`. -/
theorem react_substeps_bounded_when_behind_witness :
    10 ≤ timestep_substeps
        (react_before_starting_simulation (.FixedSubsteps ⟨1/60, 1⟩) 7).1 ∧
      timestep_substeps
        (react_before_starting_simulation (.FixedSubsteps ⟨1/60, 1⟩) 7).1 ≤ 40 :=
  react_substeps_bounded_when_behind 7 ⟨1/60, 1⟩ (by norm_num)

/-- C5: in fixed-substep mode, whenever the drift exceeds the hard threshold
`1.0`, `SimulationToRenderTime.diff` is reset to exactly `0`, in addition to
the sub-step adjustment (which is computed from the pre-reset drift). -/
theorem react_resets_diff_over_hard_threshold (diff : ℚ) (sync : FixedSubsteps)
    (h : 1 < diff) :
    (react_before_starting_simulation (.FixedSubsteps sync) diff).2 = 0 ∧
      (react_before_starting_simulation (.FixedSubsteps sync) diff).1 =
        .FixedSubsteps ⟨sync.substep_dt,
          natClampRust (ratAsUsize ((diff / 2) / sync.substep_dt)) 10 40⟩ := by
  rw [react_behind_eq diff sync (by linarith)]
  simp [h]

/-- Witness for C5 at `diff = 1.5 = 3/2`, `substep_dt = 1/60`. -/
theorem react_resets_diff_over_hard_threshold_witness :
    (react_before_starting_simulation (.FixedSubsteps ⟨1/60, 1⟩) (3/2)).2 = 0 ∧
      (react_before_starting_simulation (.FixedSubsteps ⟨1/60, 1⟩) (3/2)).1 =
        .FixedSubsteps ⟨1/60, 40⟩ := by
  have h := react_resets_diff_over_hard_threshold (3/2) ⟨1/60, 1⟩ (by norm_num)
  refine ⟨h.1, ?_⟩
  rw [h.2]
  norm_num [ratAsUsize, natClampRust]

/-- C1: along every sequence of scheduler events, a World has at most one
in-flight worker task, and while its `SimulationTask` marker is present a run
of `spawn_simulation_task` dispatches nothing (the World's state is
unchanged): a new background step is never dispatched while the marker is
present. -/
theorem at_most_one_in_flight_task (evs : List SchedEvent) :
    (sched_run evs).inFlight ≤ 1 ∧
      ((sched_run evs).hasTask = true →
        spawn_simulation_task_world (sched_run evs) = sched_run evs) := by
  constructor
  · have h := sched_run_inv evs
    by_cases hb : (sched_run evs).hasTask <;> simp [hb] at h <;> omega
  · intro h
    simp [spawn_simulation_task_world, h]

/-- Witness for C1 on the concrete trace `[spawn]`: the marker is present, a
second spawn changes nothing, and at most one task is in flight. -/
theorem at_most_one_in_flight_task_witness :
    (sched_run [SchedEvent.spawn]).inFlight ≤ 1 ∧
      spawn_simulation_task_world (sched_run [SchedEvent.spawn]) =
        sched_run [SchedEvent.spawn] :=
  ⟨(at_most_one_in_flight_task [SchedEvent.spawn]).1,
    (at_most_one_in_flight_task [SchedEvent.spawn]).2 (by decide)⟩

/-- C6: when at most 20 render frames have elapsed since dispatch,
`handle_tasks` polls non-blockingly — if no result is available the task stays
in flight with its counter incremented, and an available result is consumed;
once the elapsed-frame count exceeds 20 it blocks until the result arrives. -/
theorem handle_tasks_polling_policy (t : SimulationTask) (avail : Bool) :
    (t.render_frames_elapsed ≤ 20 → avail = false →
        handle_tasks_poll t avail =
          (.stillInFlight, some ⟨t.render_frames_elapsed + 1⟩)) ∧
      (t.render_frames_elapsed ≤ 20 → avail = true →
        handle_tasks_poll t avail = (.resultHandledPolled, none)) ∧
      (20 < t.render_frames_elapsed →
        handle_tasks_poll t avail = (.resultHandledBlocking, none)) := by
  unfold handle_tasks_poll
  refine ⟨?_, ?_, ?_⟩
  · intro h ha
    rw [if_neg (by omega), ha]
    simp
  · intro h ha
    rw [if_neg (by omega), ha]
    simp
  · intro h
    rw [if_pos (by omega)]

/-- Witness for C6 at a task 5 frames old with no result available. -/
theorem handle_tasks_polling_policy_witness :
    handle_tasks_poll ⟨5⟩ false = (.stillInFlight, some ⟨6⟩) :=
  (handle_tasks_polling_policy ⟨5⟩ false).1 (by decide) rfl

/-- C7: with the physics pipeline active, the worker's catch-up loop performs
at most 3 `step_simulation` calls; the returned `simulated_time` is the sum of
the durations of the steps actually performed; before each performed step the
accumulated simulated time did not yet exceed the drift captured at dispatch;
and if the loop stopped before exhausting its 3 tries, it stopped precisely
because the accumulated simulated time exceeded that drift. -/
theorem worker_catch_up_loop_bounded (t : ℚ) (d : ℕ → ℚ) :
    (spawn_simulation_task_worker true t d).2 ≤ 3 ∧
      (spawn_simulation_task_worker true t d).1 =
        ∑ i ∈ Finset.range (spawn_simulation_task_worker true t d).2, d i ∧
      (∀ j < (spawn_simulation_task_worker true t d).2,
        ¬ t < ∑ i ∈ Finset.range j, d i) ∧
      ((spawn_simulation_task_worker true t d).2 < 3 →
        t < (spawn_simulation_task_worker true t d).1) := by
  have h := step_simulation_loop_spec t d 3 0
  simp only [Finset.range_zero, Finset.sum_empty, Nat.zero_add] at h
  obtain ⟨_, h2, h3, h4, h5⟩ := h
  simp only [spawn_simulation_task_worker, if_pos]
  exact ⟨h2, h3, fun j hj => h4 j (Nat.zero_le j) hj, h5⟩

/-- Witness for C7 at `time_to_catch_up = 1/100` and every step simulating
`1/60`: at most 3 steps, and (since the loop stops after its first step) the
produced simulated time exceeds the pending drift. -/
theorem worker_catch_up_loop_bounded_witness :
    (spawn_simulation_task_worker true (1/100) (fun _ => 1/60)).2 ≤ 3 ∧
      (1 : ℚ)/100 < (spawn_simulation_task_worker true (1/100) (fun _ => 1/60)).1 := by
  have h := worker_catch_up_loop_bounded (1/100) (fun _ => 1/60)
  refine ⟨h.1, h.2.2.2 ?_⟩
  show (step_simulation_loop (1/100) (fun _ => 1/60) 3 0 0).2 < 3
  norm_num [step_simulation_loop]

/-- C8: for a collider-handle removal of entity `e` processed by
`sync_removals` when some context's `entity2collider` map contains `e` (the
context following the prefix `pre` of contexts not containing `e`), the found
context has the collider removed from its collider container and
`(handle, e)` recorded in its `deleted_colliders`, its `entity2collider` entry
is erased, and a `MassModifiedEvent` is emitted exactly for the collider's
parent rigid body when it has one. -/
theorem sync_removals_collider_removal (e handle idc : ℕ) (c : RapierContext)
    (pre post : List (ℕ × RapierContext))
    (hpre : ∀ p ∈ pre, alookup p.2.entity2collider e = none)
    (hc : alookup c.entity2collider e = some handle) :
    ∃ cFinal,
      (sync_removed_collider e (pre ++ (idc, c) :: post)).1 =
          pre ++ (idc, cFinal) :: post ∧
        cFinal.colliders = c.colliders.erase handle ∧
        alookup cFinal.deleted_colliders handle = some e ∧
        cFinal.entity2collider = aerase c.entity2collider e ∧
        (sync_removed_collider e (pre ++ (idc, c) :: post)).2 =
          match c.collider_parent e with
          | some parent => [parent]
          | none => [] := by
  induction pre with
  | nil =>
    refine ⟨(collider_removal_update e handle
        { c with entity2collider := aerase c.entity2collider e }).1, ?_, ?_, ?_, ?_, ?_⟩ <;>
      simp [sync_removed_collider, removed_collider_finder, hc, collider_removal_update,
        alookup_ainsert]
  | cons p pre ih =>
    obtain ⟨pid, pc⟩ := p
    have hp0 := hpre (pid, pc) (List.mem_cons_self _ _)
    obtain ⟨cF, h1, h2, h3, h4, h5⟩ := ih (fun q hq => hpre q (List.mem_cons_of_mem _ hq))
    refine ⟨cF, ?_, h2, h3, h4, ?_⟩
    · simp only [List.cons_append, sync_removed_collider, removed_collider_finder, hp0,
        aerase_of_alookup_none _ _ hp0]
      simpa using h1
    · simp only [List.cons_append, sync_removed_collider, removed_collider_finder, hp0,
        aerase_of_alookup_none _ _ hp0]
      simpa using h5

/-- Witness for C8: entity `5` with collider `7` (parent body of entity `9`)
found in the second of two contexts. -/
theorem sync_removals_collider_removal_witness :
    ∃ cFinal,
      (sync_removed_collider 5 ([(0, ctx_empty)] ++ (1, ctx_owner) :: [])).1 =
          [(0, ctx_empty)] ++ (1, cFinal) :: [] ∧
        cFinal.colliders = ctx_owner.colliders.erase 7 ∧
        alookup cFinal.deleted_colliders 7 = some 5 ∧
        cFinal.entity2collider = aerase ctx_owner.entity2collider 5 ∧
        (sync_removed_collider 5 ([(0, ctx_empty)] ++ (1, ctx_owner) :: [])).2 = [9] := by
  have h := sync_removals_collider_removal 5 7 1 ctx_owner [(0, ctx_empty)] []
    (by
      intro p hp
      have hpe : p = (0, ctx_empty) := by simpa using hp
      subst hpe
      rfl)
    rfl
  obtain ⟨cF, h1, h2, h3, h4, h5⟩ := h
  refine ⟨cF, h1, h2, h3, h4, ?_⟩
  rw [h5]
  rfl

/-- C9 counterexample: entity `1` carries no `RapierContextEntityLink` of its
own and becomes a child of entity `0`, which is linked to context `100`;
the query of `on_add_entity_with_parent` is filtered by
`With<RapierContextEntityLink>`, so entity `1` is not selected, and after one
pass it is still unlinked — not linked to its ancestor's context as the claim
states. -/
theorem on_add_entity_with_parent_skips_unlinked_child :
    (on_add_entity_with_parent unlinked_child_state 4 [1]).link 1 = none ∧
      (on_add_entity_with_parent unlinked_child_state 4 [1]).link 1 ≠ some 100 := by
  constructor <;> decide

/-- C9 (amended): an entity selected by the query — carrying a
`RapierContextEntityLink` and a `Parent`, and matching the change filter — has
the link of its nearest linked ancestor installed by one pass of
`on_add_entity_with_parent` whenever that ancestor's link differs from its
own, with its old physics handles removed first; an entity carrying no link of
its own is not selected (filter `With<RapierContextEntityLink>`) and keeps no
link. -/
theorem on_add_entity_with_parent_installs_ancestor_link (s : EcsState)
    (ent parent l pw fuel : ℕ) (hlink : s.link ent = some l)
    (hparent : s.parentOf ent = some parent)
    (hwalk : walk_to_linked_ancestor s fuel (some parent) = some pw) (hne : l ≠ pw) :
    (on_add_entity_with_parent s fuel [ent]).link ent = some pw ∧
      (on_add_entity_with_parent s fuel [ent]).handles ent = HandleSet.cleared := by
  simp only [on_add_entity_with_parent, List.foldl_cons, List.foldl_nil, hlink, hparent, hwalk]
  rw [if_pos (by simpa using hne)]
  simp [apply_cmd]

/-- Witness for amended C9: entity `2` (linked to `50`), child of unlinked
entity `1`, itself child of entity `0` linked to `100`, ends up linked to
`100` with its handles removed. -/
theorem on_add_entity_with_parent_installs_ancestor_link_witness :
    (on_add_entity_with_parent linked_child_state 4 [2]).link 2 = some 100 ∧
      (on_add_entity_with_parent linked_child_state 4 [2]).handles 2 = HandleSet.cleared :=
  on_add_entity_with_parent_installs_ancestor_link linked_child_state 2 1 50 100 4
    rfl rfl rfl (by decide)

/-- C10: a rigid-body-handle removal processed by `sync_removals` mutates at
most one `RapierContext`: `find_context_entity` with the
`entity2body.remove(&entity)` finder either finds nothing and leaves every
context unchanged (removing an absent key is a no-op), or removes the map
entry of exactly the first context whose `entity2body` map contains the
entity, leaving the registry maps and containers of every other context —
visited or not — unchanged.  The collider and joint removal branches use the
same traversal with the analogous map. -/
theorem find_context_entity_mutates_at_most_one (e : ℕ)
    (ctxs : List (ℕ × RapierContext)) :
    ((find_context_entity (removed_body_finder e) ctxs).1 = none →
        (find_context_entity (removed_body_finder e) ctxs).2 = ctxs) ∧
      ∀ idc handle,
        (find_context_entity (removed_body_finder e) ctxs).1 = some (idc, handle) →
          ∃ i : ℕ, ∃ ci : RapierContext, ctxs[i]? = some (idc, ci) ∧
            alookup ci.entity2body e = some handle ∧
            (∀ j, j < i → ∀ cj : ℕ × RapierContext,
              ctxs[j]? = some cj → alookup cj.2.entity2body e = none) ∧
            (∀ j, j ≠ i →
              (find_context_entity (removed_body_finder e) ctxs).2[j]? = ctxs[j]?) ∧
            (find_context_entity (removed_body_finder e) ctxs).2[i]? =
              some (idc, { ci with entity2body := aerase ci.entity2body e }) := by
  induction ctxs with
  | nil =>
    refine ⟨fun _ => rfl, ?_⟩
    intro idc handle hco
    simp [find_context_entity] at hco
  | cons hd tl ih =>
    obtain ⟨id0, c0⟩ := hd
    cases hl : alookup c0.entity2body e with
    | some v =>
      have heq1 : find_context_entity (removed_body_finder e) ((id0, c0) :: tl) =
          (some (id0, v),
            (id0, { c0 with entity2body := aerase c0.entity2body e }) :: tl) := by
        simp [find_context_entity, removed_body_finder, hl]
      constructor
      · intro hno
        rw [heq1] at hno
        simp at hno
      · intro idc handle hfound
        rw [heq1] at hfound
        simp only [Option.some.injEq, Prod.mk.injEq] at hfound
        obtain ⟨hid, hv⟩ := hfound
        subst hid; subst hv
        refine ⟨0, c0, by simp, hl, ?_, ?_, ?_⟩
        · intro j hj cj _
          omega
        · intro j hj
          rw [heq1]
          cases j with
          | zero => exact absurd rfl hj
          | succ n => simp
        · rw [heq1]
          simp
    | none =>
      have hcw : aerase c0.entity2body e = c0.entity2body :=
        aerase_of_alookup_none _ _ hl
      have heq1 : find_context_entity (removed_body_finder e) ((id0, c0) :: tl) =
          ((find_context_entity (removed_body_finder e) tl).1,
            (id0, c0) :: (find_context_entity (removed_body_finder e) tl).2) := by
        simp [find_context_entity, removed_body_finder, hl, hcw]
      obtain ⟨ihn, ihs⟩ := ih
      constructor
      · intro hno
        rw [heq1] at hno ⊢
        rw [ihn hno]
      · intro idc handle hfound
        rw [heq1] at hfound
        obtain ⟨i, ci, g1, g2, g3, g4, g5⟩ := ihs idc handle hfound
        refine ⟨i + 1, ci, by rw [List.getElem?_cons_succ]; exact g1, g2, ?_, ?_, ?_⟩
        · intro j hj cj hcj
          cases j with
          | zero =>
            have hcj0 : cj = (id0, c0) := by simpa [eq_comm] using hcj
            subst hcj0
            exact hl
          | succ n =>
            exact g3 n (by omega) cj (by simpa using hcj)
        · intro j hj
          rw [heq1]
          cases j with
          | zero => simp
          | succ n =>
            simp only [List.getElem?_cons_succ]
            exact g4 n (by omega)
        · rw [heq1]
          simpa using g5

/-- Witness for C10: entity `9`, whose body handle `3` lives in the second of
two contexts; the first context is untouched. -/
theorem find_context_entity_mutates_at_most_one_witness :
    ∃ i : ℕ, ∃ ci : RapierContext,
      ([(3, ctx_empty), (4, ctx_owner)] : List (ℕ × RapierContext))[i]? =
        some (4, ci) ∧
      alookup ci.entity2body 9 = some 3 ∧
      (∀ j, j < i → ∀ cj : ℕ × RapierContext,
        ([(3, ctx_empty), (4, ctx_owner)] : List (ℕ × RapierContext))[j]? = some cj →
          alookup cj.2.entity2body 9 = none) ∧
      (∀ j, j ≠ i →
        (find_context_entity (removed_body_finder 9) [(3, ctx_empty), (4, ctx_owner)]).2[j]? =
          ([(3, ctx_empty), (4, ctx_owner)] : List (ℕ × RapierContext))[j]?) ∧
      (find_context_entity (removed_body_finder 9) [(3, ctx_empty), (4, ctx_owner)]).2[i]? =
        some (4, { ci with entity2body := aerase ci.entity2body 9 }) :=
  (find_context_entity_mutates_at_most_one 9 [(3, ctx_empty), (4, ctx_owner)]).2 4 3 rfl

end BevyRapier
